import Mathlib

/-!
Verification of `src/sharedcode/helper.py` (record-transformation pipeline:
batch processor, record transformer, index publisher, completion client).

The embedding models Python JSON-like values (`PyVal`), Python exceptions
(`PyExc`), and translates each source function.  Fallible Python code is
translated into `Except PyExc`; external transports (Service Bus send,
HTTP post to the search index, the OpenAI backend) are parameters that
describe the outcome of the external call.
-/

/-- Python exceptions relevant to `helper.py`.  `queueError` carries the
string form of an arbitrary exception raised by the Service Bus send. -/
inductive PyExc where
  | keyError (key : String)
  | assertionError (msg : String)
  | typeError (msg : String)
  | valueError (msg : String)
  | queueError (msg : String)

/-- JSON-like Python values as processed by `helper.py`.  Dicts are ordered
association lists (insertion order, unique keys in all inputs considered).
Floating-point literals and null do not occur in any property considered
and are omitted apart from `null`. -/
inductive PyVal where
  | null
  | bool (b : Bool)
  | int (n : Int)
  | str (s : String)
  | list (xs : List PyVal)
  | dict (fields : List (String × PyVal))

/-- Python `d[k]` on a dict: the value, or `KeyError` when the key is absent. -/
def dictGet (d : List (String × PyVal)) (k : String) : Except PyExc PyVal :=
  match d.lookup k with
  | some v => .ok v
  | none => .error (.keyError k)

/-- Python `v[k]` with a string subscript: dict lookup; a non-dict raises
`TypeError` (string/list subscripts with a string key raise TypeError). -/
def subscript (v : PyVal) (k : String) : Except PyExc PyVal :=
  match v with
  | .dict fields => dictGet fields k
  | _ => .error (.typeError "value is not subscriptable by a string key")

/-- Python `s == k` for a single element of a list container, with a string
needle: only a string compares equal to a string. -/
def eqStrNeedle (k : String) (v : PyVal) : Bool :=
  match v with
  | .str s => s == k
  | _ => false

/-- Python substring test `k in s` on character lists. -/
def listIsInfix (needle hay : List Char) : Bool :=
  match hay with
  | [] => needle.isEmpty
  | _ :: rest => needle.isPrefixOf hay || listIsInfix needle rest

/-- Python `k in v` for a string key `k`: key test for dicts, substring test
for strings, membership for lists, `TypeError` otherwise. -/
def pyContains (v : PyVal) (k : String) : Except PyExc Bool :=
  match v with
  | .dict fields => .ok (fields.lookup k).isSome
  | .str s => .ok (listIsInfix k.toList s.toList)
  | .list xs => .ok (xs.any (eqStrNeedle k))
  | _ => .error (.typeError "argument of type is not iterable")

/-- Python `str(e)` for the exceptions above (`str(KeyError(k))` is the
quoted key). -/
def pyExcStr (e : PyExc) : String :=
  match e with
  | .keyError k => "\x27" ++ k ++ "\x27"
  | .assertionError m => m
  | .typeError m => m
  | .valueError m => m
  | .queueError m => m

/-- The per-record failure value built at helper.py:156-160 and 172-176:
`{recordId, errors: [{message}]}`. -/
def errorRecord (recordId : PyVal) (msg : String) : PyVal :=
  .dict [("recordId", recordId),
         ("errors", .list [.dict [("message", .str msg)]])]

/-- The per-record success value built at helper.py:178-183:
`{recordId, data: {status: "Processing document"}}`. -/
def successRecord (recordId : PyVal) : PyVal :=
  .dict [("recordId", recordId),
         ("data", .dict [("status", .str "Processing document")])]

/-- The validation `try` body of `transform_value` (helper.py:150-154):
`assert ("data" in value)`, `data = value["data"]`,
`assert ("metadata_storage_path" in data)`, `assert ("text" in data)`.
Returns the `data` object on success; a failed `assert` is an
`AssertionError` carrying the assert message. -/
def validationBody (fields : List (String × PyVal)) : Except PyExc PyVal :=
  match fields.lookup "data" with
  | none => .error (.assertionError "\x27data\x27 field is required.")
  | some data =>
    match pyContains data "metadata_storage_path" with
    | .error e => .error e
    | .ok false =>
        .error (.assertionError
          "\x27metadata_storage_path\x27 field is required in \x27data\x27 object.")
    | .ok true =>
      match pyContains data "text" with
      | .error e => .error e
      | .ok false =>
          .error (.assertionError
            "\x27text\x27 field is required in \x27data\x27 object.")
      | .ok true => .ok data

/-- The enqueue `try` body of `transform_value` (helper.py:162-168): build
`output = {metadata_storage_path, text}` by subscripting `data`, then
`send_to_queue(output)`.  The external Service Bus send is modelled by
`enq`: `none` means the send returns normally, `some cause` means it raises
an exception whose string form is `cause`. -/
def enqueueBody (enq : Option String) (data : PyVal) : Except PyExc Unit :=
  match subscript data "metadata_storage_path" with
  | .error e => .error e
  | .ok _ =>
    match subscript data "text" with
    | .error e => .error e
    | .ok _ =>
      match enq with
      | some cause => .error (.queueError cause)
      | none => .ok ()

/-- helper.py:143-183, `transform_value(value)`.  The result is
`Except PyExc (Option PyVal)`: `.error e` is an exception escaping the
function, `.ok none` is Python `return None`, `.ok (some r)` is a returned
record.

First block (lines 144-147): `recordId = value["recordId"]` under
`except AssertionError: return None`.  A dict without the key raises
`KeyError`, which that handler does not catch, so the `return None`
branch is unreachable and the `KeyError` escapes.

Second block (lines 150-160): validation under `except AssertionError`,
returning `{recordId, errors: [{message: "Error:" + msg}]}`.

Third block (lines 162-176): enqueue under `except Exception as e`,
returning `{recordId, errors: [{message: "Could not complete operation
for record. " + str(e)}]}`; otherwise the success record (lines 178-183). -/
def transform_value (enq : Option String) (value : PyVal) : Except PyExc (Option PyVal) :=
  match value with
  | .dict fields =>
    match dictGet fields "recordId" with
    | .error (.assertionError _) => .ok none
    | .error e => .error e
    | .ok recordId =>
      match validationBody fields with
      | .error (.assertionError msg) => .ok (some (errorRecord recordId ("Error:" ++ msg)))
      | .error e => .error e
      | .ok data =>
        match enqueueBody enq data with
        | .error e =>
            .ok (some (errorRecord recordId
              ("Could not complete operation for record. " ++ pyExcStr e)))
        | .ok _ => .ok (some (successRecord recordId))
  | _ => .error (.typeError "value is not subscriptable by a string key")

/-- The process-wide configuration read at import time (helper.py:22-30):
`MODEL`, `TEMPERATURE`, `MAX_TOKENS`, `TOP_P`, `FREQUENCY_PENALTY`,
`PRESENCE_PENALTY`, `PROMPT`.  The float-typed parameters are modelled as
rationals; the exact decimal values occurring here are representable. -/
structure Config where
  model : String
  temperature : ℚ
  maxTokens : Nat
  topP : ℚ
  frequencyPenalty : ℚ
  presencePenalty : ℚ
  promptDefault : String

/-- helper.py:47 and 61, `prompt = PROMPT if prompt == "" else prompt`. -/
def effPrompt (cfg : Config) (prompt : String) : String :=
  if prompt = "" then cfg.promptDefault else prompt

/-- The request sent by `client.completion.create` (helper.py:48-56). -/
structure CompletionRequest where
  engine : String
  prompt : String
  temperature : ℚ
  maxTokens : Nat
  topP : ℚ
  frequencyPenalty : ℚ
  presencePenalty : ℚ

/-- helper.py:46-56: the completion-mode request.  Every generation
parameter is the configured process-wide default; the prompt string is
`f"{text}:\n\n{prompt}"` after the empty-prompt substitution. -/
def completionRequest (cfg : Config) (text prompt : String) : CompletionRequest :=
  { engine := cfg.model
    prompt := text ++ ":\n\n" ++ effPrompt cfg prompt
    temperature := cfg.temperature
    maxTokens := cfg.maxTokens
    topP := cfg.topP
    frequencyPenalty := cfg.frequencyPenalty
    presencePenalty := cfg.presencePenalty }

/-- The request sent by `client.chat.completions.create` (helper.py:62-71).
Messages are (role, content) pairs.  The source passes no frequency or
presence penalty in chat mode, so the structure has no such fields. -/
structure ChatRequest where
  model : String
  messages : List (String × String)
  temperature : ℚ
  maxTokens : Nat
  topP : ℚ

/-- helper.py:60-71: the chat-mode request.  The model name comes from the
configuration, but `temperature`, `max_tokens` and `top_p` are the literal
constants 0.7, 800 and 0.95 written at lines 67-69, not the configured
values. -/
def chatRequest (cfg : Config) (text prompt : String) : ChatRequest :=
  { model := cfg.model
    messages := [("system", effPrompt cfg prompt), ("user", text)]
    temperature := 7/10
    maxTokens := 800
    topP := 19/20 }

/-- Modelled from the spec: the driver of the third-party `tenacity.retry`
decorator with `stop_after_attempt(stop)` (the library itself is not under
src/).  `backend n` is the outcome of attempt number `n` (numbered from 1).
A successful attempt returns its value; a failing attempt retries until
the stop bound, after which the exception of the final attempt is surfaced
to the caller (spec: `BackendError`).  `fuel` bounds the recursion and is
instantiated with `stop`. -/
def retryGo (stop : Nat) (backend : Nat → Except String String) :
    Nat → Nat → Except String String
  | 0, n => backend n
  | fuel + 1, n =>
    match backend n with
    | .ok a => .ok a
    | .error e => if stop ≤ n then .error e else retryGo stop backend fuel (n + 1)

/-- Modelled from the spec: `tenacity.retry(stop=stop_after_attempt(stop))`
applied to a call whose attempts behave as `backend`. -/
def tenacityRetry (stop : Nat) (backend : Nat → Except String String) :
    Except String String :=
  retryGo stop backend stop 1

/-- Modelled from the spec: `tenacity.wait_random_exponential(min=mn,
max=mx)` — the randomized wait before the retry that follows attempt `k`,
growing exponentially with the attempt number and clamped to the
configured bounds; `u k` is the random sample in `[0, 1]` drawn for that
attempt. -/
def wait_random_exponential (mn mx : ℚ) (u : Nat → ℚ) (k : Nat) : ℚ :=
  max mn (min (u k * 2 ^ k) mx)

/-- helper.py:45-57, `get_openai_completion(text, prompt)` under
`@retry(wait=wait_random_exponential(min=1, max=20),
stop=stop_after_attempt(6))`.  The remote backend is the parameter
`backend`: given the request, it yields the outcome of each attempt. -/
def get_openai_completion (cfg : Config)
    (backend : CompletionRequest → Nat → Except String String)
    (text prompt : String) : Except String String :=
  tenacityRetry 6 (backend (completionRequest cfg text prompt))

/-- helper.py:59-72, `get_openai_chat_completion(text, prompt)` under the
same retry decorator. -/
def get_openai_chat_completion (cfg : Config)
    (backend : ChatRequest → Nat → Except String String)
    (text prompt : String) : Except String String :=
  tenacityRetry 6 (backend (chatRequest cfg text prompt))

/-- Python `x == []` (helper.py:100): true exactly for the empty list
(an empty dict does not compare equal to the empty list). -/
def isEmptyList (v : PyVal) : Bool :=
  match v with
  | .list [] => true
  | _ => false

/-- Python truthiness, `bool(x)`. -/
def pyBool (v : PyVal) : Bool :=
  match v with
  | .null => false
  | .bool b => b
  | .int n => n != 0
  | .str s => s ≠ ""
  | .list xs => !xs.isEmpty
  | .dict fields => !fields.isEmpty

/-- Accumulating decimal digit run parser: fails on any non-digit. -/
def parseDigitsGo : List Char → Nat → Option Nat
  | [], acc => some acc
  | c :: rest, acc =>
    if c.isDigit then parseDigitsGo rest (10 * acc + (c.toNat - 48)) else none

/-- Decimal digit run parser used for Python `int(str)`: all characters
must be digits and the run must be nonempty. -/
def parseDigits : List Char → Option Nat
  | [] => none
  | cs => parseDigitsGo cs 0

/-- Python `int(s)` for a string: strips surrounding spaces, optional sign,
then a nonempty digit run; anything else raises `ValueError`.  (Underscore
separators and non-ASCII digits are not modelled; no considered property
depends on them.) -/
def pyIntOfString (s : String) : Except PyExc Int :=
  let cs := ((s.toList.dropWhile (· = ' ')).reverse.dropWhile (· = ' ')).reverse
  match cs with
  | '-' :: rest =>
    match parseDigits rest with
    | some n => .ok (-(n : Int))
    | none => .error (.valueError "invalid literal for int")
  | '+' :: rest =>
    match parseDigits rest with
    | some n => .ok (n : Int)
    | none => .error (.valueError "invalid literal for int")
  | rest =>
    match parseDigits rest with
    | some n => .ok (n : Int)
    | none => .error (.valueError "invalid literal for int")

/-- Python `int(x)`: identity on ints, 0/1 on bools, string parsing as
above, `TypeError` on containers and null.  (Floats do not occur in the
inputs considered.) -/
def pyInt (v : PyVal) : Except PyExc Int :=
  match v with
  | .int n => .ok n
  | .bool b => .ok (if b then 1 else 0)
  | .str s => pyIntOfString s
  | _ => .error (.typeError "int() argument must be a string or a number")

/-- Whether a trimmed character list is a Python float literal of the plain
decimal form: optional sign, then `digits`, `digits.digits`, `digits.` or
`.digits`.  (Exponents, infinities and nan are not modelled; no considered
property depends on them.) -/
def isFloatBody (cs : List Char) : Bool :=
  match cs.span Char.isDigit with
  | (intPart, rest) =>
    match rest with
    | [] => !intPart.isEmpty
    | '.' :: frac => (!intPart.isEmpty || !frac.isEmpty) && frac.all Char.isDigit
    | _ => false

/-- Whether Python `float(x)` succeeds. -/
def pyFloatOk (v : PyVal) : Bool :=
  match v with
  | .int _ => true
  | .bool _ => true
  | .str s =>
    let cs := ((s.toList.dropWhile (· = ' ')).reverse.dropWhile (· = ' ')).reverse
    match cs with
    | '-' :: rest => isFloatBody rest
    | '+' :: rest => isFloatBody rest
    | rest => isFloatBody rest
  | _ => false

/-- A value stored into the index update document.  `str` and `int` carry
the coerced result; `double` keeps the source value symbolically, since no
considered property inspects the numeric rendering of a float; `raw` is a
value stored without coercion (the `metadata_storage_path`). -/
inductive IdxVal where
  | str (s : String)
  | int (n : Int)
  | double (source : PyVal)
  | bool (b : Bool)
  | raw (v : PyVal)

/-- Python `str(x)` restricted to the scalar values that occur as coerced
index fields.  The rendering of containers is kept as an opaque marker;
no considered property inspects it. -/
def pyStr (v : PyVal) : String :=
  match v with
  | .str s => s
  | .int n => toString n
  | .bool b => if b then "True" else "False"
  | .null => "None"
  | _ => "<container repr>"

/-- One iteration of the field loop of `push_to_ACS` (helper.py:106-118)
for a well-formed triple `key:search_type:_`: the `search_type` dispatch,
the `data["output"][key]` subscript and the coercion.  `.ok none` is the
`return 500` branch for an invalid search type; `.error` is an uncaught
`KeyError`/`ValueError`/`TypeError` from the subscript or the coercion. -/
def coerceField (output : PyVal) (key searchType : String) : Except PyExc (Option IdxVal) :=
  if searchType = "Edm.String" then
    match subscript output key with
    | .error e => .error e
    | .ok v => .ok (some (.str (pyStr v)))
  else if searchType = "Edm.Int32" then
    match subscript output key with
    | .error e => .error e
    | .ok v =>
      match pyInt v with
      | .error e => .error e
      | .ok n => .ok (some (.int n))
  else if searchType = "Edm.Int64" then
    match subscript output key with
    | .error e => .error e
    | .ok v =>
      match pyInt v with
      | .error e => .error e
      | .ok n => .ok (some (.int n))
  else if searchType = "Edm.Double" then
    match subscript output key with
    | .error e => .error e
    | .ok v =>
      if pyFloatOk v then .ok (some (.double v))
      else .error (.valueError "could not convert string to float")
  else if searchType = "Edm.Boolean" then
    match subscript output key with
    | .error e => .error e
    | .ok v => .ok (some (.bool (pyBool v)))
  else
    .ok none

/-- Whether a search type tag is one of the five handled by the loop. -/
def isKnownType (searchType : String) : Bool :=
  searchType == "Edm.String" || searchType == "Edm.Int32" ||
  searchType == "Edm.Int64" || searchType == "Edm.Double" ||
  searchType == "Edm.Boolean"

/-- Python single-character `split` on a character list: separators produce
empty segments, the empty list yields one empty segment. -/
def splitListOn (sep : Char) : List Char → List (List Char)
  | [] => [[]]
  | c :: rest =>
    match splitListOn sep rest with
    | [] => [[c]]
    | seg :: segs =>
      if c = sep then [] :: seg :: segs
      else (c :: seg) :: segs

/-- Python `s.split(sep)` for a one-character separator. -/
def pySplit (sep : Char) (s : String) : List String :=
  (splitListOn sep s.toList).map List.asString

/-- helper.py:104, `OPENAI_PROMPT_KEYS.replace(" ", "").split(",")`. -/
def parseKeys (promptKeys : String) : List String :=
  pySplit ',' (List.asString (promptKeys.toList.filter (fun c => c ≠ ' ')))

/-- The field loop of `push_to_ACS` (helper.py:104-120) over the split
configuration entries: each entry is unpacked as `key, search_type, _ =
entry.split(":")` (a `ValueError` escapes when the entry does not have
exactly three parts), then coerced.  `.ok none` models the `return 500`
taken for an invalid search type; `.ok (some fields)` is the list of typed
assignments made to `body_value`, in loop order. -/
def mapFields (entries : List String) (output : PyVal) :
    Except PyExc (Option (List (String × IdxVal))) :=
  match entries with
  | [] => .ok (some [])
  | entry :: rest =>
    match pySplit ':' entry with
    | [key, searchType, _extra] =>
      match coerceField output key searchType with
      | .error e => .error e
      | .ok none => .ok none
      | .ok (some v) =>
        match mapFields rest output with
        | .error e => .error e
        | .ok none => .ok none
        | .ok (some tail) => .ok (some ((key, v) :: tail))
    | _ => .error (.valueError "not enough values to unpack")

/-- helper.py:82-125, `push_to_ACS(data)`.  External pieces are parameters:
`promptKeys` is the `OPENAI_PROMPT_KEYS` configuration string and
`postStatus` the HTTP status the search index endpoint would return for a
posted document.  The result is the returned status code together with
the single document posted to the index (`none` when `requests.post` was
never reached).  Source order: `body_value` is built from
`data["metadata_storage_path"]` (line 98) before the `data["output"] == []`
short-circuit (lines 100-102); an invalid search type returns 500 before
posting (lines 117-118); otherwise the document is posted and the HTTP
status returned (lines 123-125). -/
def push_to_ACS (promptKeys : String) (postStatus : Nat)
    (data : List (String × PyVal)) :
    Except PyExc (Nat × Option (List (String × IdxVal))) :=
  match dictGet data "metadata_storage_path" with
  | .error e => .error e
  | .ok msp =>
    match dictGet data "output" with
    | .error e => .error e
    | .ok output =>
      if isEmptyList output then .ok (200, none)
      else
        match mapFields (parseKeys promptKeys) output with
        | .error e => .error e
        | .ok none => .ok (500, none)
        | .ok (some fields) =>
          .ok (postStatus,
               some (("@search.action", IdxVal.str "merge") ::
                     ("metadata_storage_path", IdxVal.raw msp) :: fields))

/-- helper.py:129-140, `compose_response`, modelled on the already parsed
`values` list of the request envelope and returning the `values` list of
the response envelope (the `json.loads`/`json.dumps` wrappers are not
modelled).  The loop appends `transform_value(value)` when it is not
`None`; an exception in any iteration escapes the whole function. -/
def compose_response (enq : Option String) (values : List PyVal) : Except PyExc (List PyVal) :=
  match values with
  | [] => .ok []
  | v :: rest =>
    match transform_value enq v with
    | .error e => .error e
    | .ok out =>
      match compose_response enq rest with
      | .error e => .error e
      | .ok tail =>
        .ok (match out with
             | none => tail
             | some r => r :: tail)

/-- A concrete publish input whose output object lacks the configured
`count` field. -/
def badOutputData : List (String × PyVal) :=
  [("metadata_storage_path", PyVal.str "/a"),
   ("output", PyVal.dict [("other", PyVal.int 1)])]

/-- A concrete publish input with a populated output object. -/
def unknownTagData : List (String × PyVal) :=
  [("metadata_storage_path", PyVal.str "/a"),
   ("output", PyVal.dict [("satisfied", PyVal.str "Yes")])]

/-! ## Theorems -/

/-- A successful lookup survives consing another binding in front. -/
theorem lookup_isSome_cons {β : Type} (k' : String) (v : β)
    (l : List (String × β)) (k : String)
    (h : (l.lookup k).isSome = true) : (((k', v) :: l).lookup k).isSome = true := by
  simp only [List.lookup]
  cases hk : k == k' <;> simp [h]

/-- If the field loop completes with a typed assignment list, every
configured entry split into a well-formed triple and its key is present in
that list: the built document is never partial. -/
theorem mapFields_covers (entries : List String) (output : PyVal)
    (fields : List (String × IdxVal))
    (h : mapFields entries output = .ok (some fields)) :
    ∀ e ∈ entries, ∃ k t x, pySplit ':' e = [k, t, x] ∧ (fields.lookup k).isSome = true := by
  induction entries generalizing fields with
  | nil => simp
  | cons entry rest ih =>
    intro e he
    rw [mapFields] at h
    split at h
    next key searchType extra hsp =>
      split at h
      next => exact absurd h (by simp)
      next => exact absurd h (by simp)
      next v hcf =>
        split at h
        next => exact absurd h (by simp)
        next => exact absurd h (by simp)
        next tail hmt =>
          have hfields : fields = (key, v) :: tail := by
            injection h with h'
            injection h' with h''
            exact h''.symm
          subst hfields
          rcases List.mem_cons.mp he with rfl | hmem
          · exact ⟨key, searchType, extra, hsp, by simp [List.lookup]⟩
          · obtain ⟨k, t, x, hsp', hl⟩ := ih tail hmt e hmem
            exact ⟨k, t, x, hsp', lookup_isSome_cons key v tail k hl⟩
    next hsp => exact absurd h (by simp)

/-- The field loop over `pre ++ l` when `pre` coerces fully: the outcome of
the remaining entries is decided by `l`, with the completed assignments of
`pre` prepended. -/
theorem mapFields_append (output : PyVal) (pre l : List String)
    (done : List (String × IdxVal))
    (h : mapFields pre output = .ok (some done)) :
    mapFields (pre ++ l) output
      = (mapFields l output).map (fun o => o.map (fun tail => done ++ tail)) := by
  induction pre generalizing done with
  | nil =>
    rw [mapFields] at h
    injection h with h'
    injection h' with h''
    subst h''
    cases hl : mapFields l output with
    | error e => simp [hl, Except.map]
    | ok o => cases o <;> simp [hl, Except.map]
  | cons entry rest ih =>
    simp only [List.cons_append]
    rw [mapFields] at h
    split at h
    next key searchType extra hsp =>
      split at h
      next => exact absurd h (by simp)
      next => exact absurd h (by simp)
      next v hcf =>
        split at h
        next => exact absurd h (by simp)
        next => exact absurd h (by simp)
        next tail hmt =>
          have hdone : done = (key, v) :: tail := by
            injection h with h'
            injection h' with h''
            exact h''.symm
          subst hdone
          simp only [mapFields, hsp, hcf, ih tail hmt]
          cases hl : mapFields l output with
          | error e => simp [hl, Except.map]
          | ok o => cases o <;> simp [hl, Except.map]
    next hsp =>
      exact absurd h (by simp)

/-- An unknown search type tag makes the loop body take the `return 500`
branch without touching the output object. -/
theorem coerceField_unknown (output : PyVal) (k t : String)
    (h : isKnownType t = false) : coerceField output k t = .ok none := by
  simp only [isKnownType, Bool.or_eq_false_iff, beq_eq_false_iff_ne, ne_eq] at h
  obtain ⟨⟨⟨⟨h1, h2⟩, h3⟩, h4⟩, h5⟩ := h
  simp [coerceField, h1, h2, h3, h4, h5]

/-- Claim C2 (amended): for every publish input, (1) a document posted to
the index covers every configured field spec — no partial document is ever
sent; (2) the first unknown search type tag (all earlier entries coercing)
yields status 500 with no document posted; (3) a missing or uncoercible
source field at the first otherwise-well-formed entry makes the underlying
`KeyError`/`ValueError`/`TypeError` escape `push_to_ACS` — it is not
surfaced as a 500 response, but no document is posted either. -/
theorem push_to_ACS_schema_failure (promptKeys : String) (postStatus : Nat)
    (data : List (String × PyVal)) :
    (∀ st fields, push_to_ACS promptKeys postStatus data = .ok (st, some fields) →
        ∀ e ∈ parseKeys promptKeys,
          ∃ k t x, pySplit ':' e = [k, t, x] ∧ (fields.lookup k).isSome = true)
    ∧ (∀ msp output pre done entry k t x rest,
        data.lookup "metadata_storage_path" = some msp →
        data.lookup "output" = some output →
        isEmptyList output = false →
        parseKeys promptKeys = pre ++ entry :: rest →
        mapFields pre output = .ok (some done) →
        pySplit ':' entry = [k, t, x] →
        isKnownType t = false →
        push_to_ACS promptKeys postStatus data = .ok (500, none))
    ∧ (∀ msp output pre done entry k t x rest exc,
        data.lookup "metadata_storage_path" = some msp →
        data.lookup "output" = some output →
        isEmptyList output = false →
        parseKeys promptKeys = pre ++ entry :: rest →
        mapFields pre output = .ok (some done) →
        pySplit ':' entry = [k, t, x] →
        coerceField output k t = .error exc →
        push_to_ACS promptKeys postStatus data = .error exc) := by
  refine ⟨?_, ?_, ?_⟩
  · intro st fields h e he
    rw [push_to_ACS] at h
    split at h
    next => exact absurd h (by simp)
    next msp hmsp =>
      split at h
      next => exact absurd h (by simp)
      next output hout =>
        split at h
        next => exact absurd h (by simp)
        next =>
          split at h
          next => exact absurd h (by simp)
          next => exact absurd h (by simp)
          next flds hmf =>
            simp only [Except.ok.injEq, Prod.mk.injEq, Option.some.injEq] at h
            obtain ⟨hst, hfields⟩ := h
            subst hfields
            obtain ⟨k, t, x, hsp, hl⟩ := mapFields_covers _ _ _ hmf e he
            exact ⟨k, t, x, hsp,
              lookup_isSome_cons _ _ _ _ (lookup_isSome_cons _ _ _ _ hl)⟩
  · intro msp output pre done entry k t x rest hmsp hout hne hkeys hpre hsp hunk
    have hmap : mapFields (parseKeys promptKeys) output = .ok none := by
      rw [hkeys, mapFields_append output pre (entry :: rest) done hpre]
      simp [mapFields, hsp, coerceField_unknown output k t hunk, Except.map]
    simp [push_to_ACS, dictGet, hmsp, hout, hne, hmap]
  · intro msp output pre done entry k t x rest exc hmsp hout hne hkeys hpre hsp hcf
    have hmap : mapFields (parseKeys promptKeys) output = .error exc := by
      rw [hkeys, mapFields_append output pre (entry :: rest) done hpre]
      simp [mapFields, hsp, hcf, Except.map]
    simp [push_to_ACS, dictGet, hmsp, hout, hne, hmap]

/-- Witness for C2: a one-entry configuration with the unknown tag
`Edm.Unknown` on a populated output makes `push_to_ACS` return 500 with
nothing posted. -/
theorem push_to_ACS_schema_failure_witness :
    push_to_ACS "satisfied:Edm.Unknown:x" 200 unknownTagData = .ok (500, none) :=
  (push_to_ACS_schema_failure "satisfied:Edm.Unknown:x" 200 unknownTagData).2.1
    (PyVal.str "/a") (PyVal.dict [("satisfied", PyVal.str "Yes")]) [] []
    "satisfied:Edm.Unknown:x" "satisfied" "Edm.Unknown" "x" []
    rfl rfl rfl rfl rfl rfl rfl

/-- Counterexample for C2 as stated: with the configuration
`count:Edm.Int32:x` and an output object lacking `count`, the claim says
the publisher fails with status 500; the code instead lets the `KeyError`
escape and never returns 500. -/
theorem push_to_ACS_missing_field_counterexample :
    push_to_ACS "count:Edm.Int32:x" 200 badOutputData = .error (.keyError "count")
    ∧ push_to_ACS "count:Edm.Int32:x" 200 badOutputData ≠ .ok (500, none) := by
  refine ⟨rfl, ?_⟩
  intro h
  rw [show push_to_ACS "count:Edm.Int32:x" 200 badOutputData
        = .error (.keyError "count") from rfl] at h
  exact Except.noConfusion h

/-- Claim C1: the claim says a WorkItem whose recordId is structurally
absent produces no result at all and is merely excluded from the batch
output.  The code instead raises: `value["recordId"]` raises `KeyError`,
and the handler at helper.py:146 catches only `AssertionError`, so the
exception escapes `transform_value`.  This theorem evaluates the code at
the failing input (a record with `data` but no `recordId`). -/
theorem transform_value_missing_recordId_raises :
    transform_value none (PyVal.dict
        [("data", PyVal.dict [("metadata_storage_path", PyVal.str "/a"),
                              ("text", PyVal.str "hello")])])
      = .error (.keyError "recordId") := rfl

/-- Claim C8: the claim says the batch output is the in-order list of
non-dropped per-item results, with identity-less items omitted.  On a
batch holding one valid item and one item without `recordId`, the code
instead aborts the whole batch with the uncaught `KeyError`, producing no
output list at all (the valid sibling result is lost too). -/
theorem compose_response_identityless_crashes :
    compose_response none
        [PyVal.dict [("recordId", PyVal.str "1"),
           ("data", PyVal.dict [("metadata_storage_path", PyVal.str "/a"),
                                ("text", PyVal.str "t")])],
         PyVal.dict []]
      = .error (.keyError "recordId") := rfl

/-- Claim C7: for every valid WorkItem (recordId, data.metadata_storage_path
and data.text all present) whose enqueue succeeds, `transform_value`
returns `{recordId, data: {status: "Processing document"}}`. -/
theorem transform_value_success (fields dfields : List (String × PyVal)) (rid : PyVal)
    (h1 : fields.lookup "recordId" = some rid)
    (h2 : fields.lookup "data" = some (.dict dfields))
    (h3 : (dfields.lookup "metadata_storage_path").isSome = true)
    (h4 : (dfields.lookup "text").isSome = true) :
    transform_value none (.dict fields) = .ok (some (successRecord rid)) := by
  obtain ⟨mv, hm⟩ := Option.isSome_iff_exists.mp h3
  obtain ⟨tv, ht⟩ := Option.isSome_iff_exists.mp h4
  simp [transform_value, dictGet, h1, validationBody, h2, pyContains, h3, h4,
        enqueueBody, subscript, hm, ht]

/-- Witness for C7 at a concrete valid WorkItem. -/
theorem transform_value_success_witness :
    transform_value none (PyVal.dict [("recordId", PyVal.str "1"),
        ("data", PyVal.dict [("metadata_storage_path", PyVal.str "/a"),
                             ("text", PyVal.str "hello")])])
      = .ok (some (successRecord (PyVal.str "1"))) :=
  transform_value_success _ _ _ rfl rfl rfl rfl

/-- Claim C5: for every WorkItem with a recordId and complete data, an
exception raised by the queue submission (modelled by `enq = some cause`,
`cause` being the string form of the exception) is caught and converted to
`{recordId, errors: [{message: "Could not complete operation for record.
<cause>"}]}`; the result is a returned record (`Except.ok`), never an
escaping exception. -/
theorem transform_value_enqueue_failure (cause : String)
    (fields dfields : List (String × PyVal)) (rid : PyVal)
    (h1 : fields.lookup "recordId" = some rid)
    (h2 : fields.lookup "data" = some (.dict dfields))
    (h3 : (dfields.lookup "metadata_storage_path").isSome = true)
    (h4 : (dfields.lookup "text").isSome = true) :
    transform_value (some cause) (.dict fields)
      = .ok (some (errorRecord rid
          ("Could not complete operation for record. " ++ cause))) := by
  obtain ⟨mv, hm⟩ := Option.isSome_iff_exists.mp h3
  obtain ⟨tv, ht⟩ := Option.isSome_iff_exists.mp h4
  simp [transform_value, dictGet, h1, validationBody, h2, pyContains, h3, h4,
        enqueueBody, subscript, hm, ht, pyExcStr]

/-- Witness for C5 at a concrete valid WorkItem and a concrete cause. -/
theorem transform_value_enqueue_failure_witness :
    transform_value (some "connection reset") (PyVal.dict [("recordId", PyVal.str "1"),
        ("data", PyVal.dict [("metadata_storage_path", PyVal.str "/a"),
                             ("text", PyVal.str "hello")])])
      = .ok (some (errorRecord (PyVal.str "1")
          "Could not complete operation for record. connection reset")) :=
  transform_value_enqueue_failure "connection reset" _ _ _ rfl rfl rfl rfl

/-- Claim C6: for every WorkItem with a recordId but missing `data`,
`data.metadata_storage_path` or `data.text` (checked in that order),
`transform_value` returns a Failure whose `errors` list holds exactly one
entry, whose message is `"Error:"` followed by the required-field text of
the first missing field only — even when later fields are missing too. -/
theorem transform_value_first_missing_field (enq : Option String)
    (fields : List (String × PyVal)) (rid : PyVal) (msg : String)
    (h1 : fields.lookup "recordId" = some rid)
    (h2 : (fields.lookup "data" = none ∧
           msg = "\x27data\x27 field is required.")
        ∨ ∃ dfields, fields.lookup "data" = some (.dict dfields) ∧
            ((dfields.lookup "metadata_storage_path" = none ∧
              msg = "\x27metadata_storage_path\x27 field is required in \x27data\x27 object.")
             ∨ ((dfields.lookup "metadata_storage_path").isSome = true ∧
                dfields.lookup "text" = none ∧
                msg = "\x27text\x27 field is required in \x27data\x27 object."))) :
    transform_value enq (.dict fields)
      = .ok (some (errorRecord rid ("Error:" ++ msg))) := by
  rcases h2 with ⟨hd, hmsg⟩ | ⟨dfields, hd, hrest⟩
  · subst hmsg
    simp [transform_value, dictGet, h1, validationBody, hd]
  · rcases hrest with ⟨hm, hmsg⟩ | ⟨hm, ht, hmsg⟩
    · subst hmsg
      simp [transform_value, dictGet, h1, validationBody, hd, pyContains, hm]
    · subst hmsg
      simp [transform_value, dictGet, h1, validationBody, hd, pyContains, hm, ht]

/-- Witness for C6: a record whose `data` object is empty, so both
`metadata_storage_path` and `text` are missing; exactly one error entry is
produced and it names only `metadata_storage_path`. -/
theorem transform_value_first_missing_field_witness :
    transform_value none (PyVal.dict [("recordId", PyVal.str "1"),
        ("data", PyVal.dict [])])
      = .ok (some (errorRecord (PyVal.str "1")
          "Error:\x27metadata_storage_path\x27 field is required in \x27data\x27 object.")) :=
  transform_value_first_missing_field none _ _ _ rfl
    (Or.inr ⟨[], rfl, Or.inl ⟨rfl, rfl⟩⟩)

/-- Claim C9: for every publish input whose enrichment output is the empty
list, `push_to_ACS` returns 200 with no document posted to the index,
whatever status the index endpoint would have returned. -/
theorem push_to_ACS_empty_output (promptKeys : String) (postStatus : Nat)
    (data : List (String × PyVal)) (msp : PyVal)
    (h1 : data.lookup "metadata_storage_path" = some msp)
    (h2 : data.lookup "output" = some (.list [])) :
    push_to_ACS promptKeys postStatus data = .ok (200, none) := by
  simp [push_to_ACS, dictGet, h1, h2, isEmptyList]

/-- Witness for C9 at a concrete publish input with empty output. -/
theorem push_to_ACS_empty_output_witness :
    push_to_ACS "summary:Edm.String:x" 503
        [("metadata_storage_path", PyVal.str "/a"), ("output", PyVal.list [])]
      = .ok (200, none) :=
  push_to_ACS_empty_output "summary:Edm.String:x" 503 _ _ rfl rfl

/-- Attempts beyond the stop bound are never consulted: two backends that
agree on attempts `n..stop` drive `retryGo` to the same outcome. -/
theorem retryGo_congr (stop : Nat) (b1 b2 : Nat → Except String String)
    (fuel : Nat) : ∀ n, n ≤ stop →
    (∀ m, n ≤ m → m ≤ stop → b1 m = b2 m) →
    retryGo stop b1 fuel n = retryGo stop b2 fuel n := by
  induction fuel with
  | zero =>
    intro n hns h
    simp [retryGo, h n le_rfl hns]
  | succ fuel ih =>
    intro n hns h
    simp only [retryGo, h n le_rfl hns]
    cases b2 n with
    | ok a => rfl
    | error e =>
      by_cases hstop : stop ≤ n
      · simp [hstop]
      · simp only [hstop, if_false]
        exact ih (n + 1) (Nat.succ_le_of_lt (Nat.lt_of_not_le hstop))
          (fun m hm hm' => h m (Nat.le_of_succ_le hm) hm')

/-- Claim C3: with the configured policy (`stop_after_attempt(6)`,
`wait_random_exponential(min=1, max=20)`), an always-failing backend makes
both completion strategies perform the attempts and then surface the
exception of the sixth attempt (no fallback value); attempts beyond the
sixth are never consulted; and every randomized wait lies between 1 and 20
time units. -/
theorem completion_retry_policy (cfg : Config) (text prompt : String)
    (b : CompletionRequest → Nat → Except String String)
    (bc : ChatRequest → Nat → Except String String)
    (e ec : Nat → String) (u : Nat → ℚ)
    (_hu : ∀ k, 0 ≤ u k ∧ u k ≤ 1)
    (hb : ∀ n, b (completionRequest cfg text prompt) n = .error (e n))
    (hbc : ∀ n, bc (chatRequest cfg text prompt) n = .error (ec n)) :
    get_openai_completion cfg b text prompt = .error (e 6)
    ∧ get_openai_chat_completion cfg bc text prompt = .error (ec 6)
    ∧ (∀ b2 : CompletionRequest → Nat → Except String String,
        (∀ n, 1 ≤ n → n ≤ 6 → b2 (completionRequest cfg text prompt) n
            = b (completionRequest cfg text prompt) n) →
        get_openai_completion cfg b2 text prompt = .error (e 6))
    ∧ (∀ k, 1 ≤ wait_random_exponential 1 20 u k
          ∧ wait_random_exponential 1 20 u k ≤ 20) := by
  have h1 : get_openai_completion cfg b text prompt = .error (e 6) := by
    simp [get_openai_completion, tenacityRetry, retryGo, hb]
  refine ⟨h1, ?_, ?_, ?_⟩
  · simp [get_openai_chat_completion, tenacityRetry, retryGo, hbc]
  · intro b2 hagree
    have hcongr := retryGo_congr 6 (b2 (completionRequest cfg text prompt))
      (b (completionRequest cfg text prompt)) 6 1 (by norm_num)
      (fun m hm hm' => hagree m hm hm')
    simp only [get_openai_completion, tenacityRetry] at h1 ⊢
    rw [hcongr]
    exact h1
  · intro k
    exact ⟨le_max_left 1 _, max_le (by norm_num) (min_le_right _ 20)⟩

/-- Configuration instance used to witness the retry policy. -/
def cfgRetryW : Config :=
  { model := "gpt-4o", temperature := 7/10, maxTokens := 800, topP := 19/20,
    frequencyPenalty := 0, presencePenalty := 0,
    promptDefault := "You are a JSON formatter." }

/-- A completion backend whose every attempt fails. -/
def bFailC : CompletionRequest → Nat → Except String String :=
  fun _ _ => .error "rate limited"

/-- A chat backend whose every attempt fails. -/
def bFailChat : ChatRequest → Nat → Except String String :=
  fun _ _ => .error "timeout"

/-- A fixed random sample sequence. -/
def uHalf : Nat → ℚ := fun _ => 1/2

/-- Witness for C3 at a concrete always-failing backend. -/
theorem completion_retry_policy_witness :
    (0 ≤ uHalf 0 ∧ uHalf 0 ≤ 1)
    ∧ get_openai_completion cfgRetryW bFailC "conversation" "" = .error "rate limited"
    ∧ get_openai_chat_completion cfgRetryW bFailChat "conversation" "" = .error "timeout"
    ∧ 1 ≤ wait_random_exponential 1 20 uHalf 2
    ∧ wait_random_exponential 1 20 uHalf 2 ≤ 20 :=
  have h := completion_retry_policy cfgRetryW "conversation" "" bFailC bFailChat
    (fun _ => "rate limited") (fun _ => "timeout") uHalf
    (fun _ => ⟨by norm_num [uHalf], by norm_num [uHalf]⟩)
    (fun _ => rfl) (fun _ => rfl)
  ⟨⟨by norm_num [uHalf], by norm_num [uHalf]⟩, h.1, h.2.1,
    (h.2.2.2 2).1, (h.2.2.2 2).2⟩

/-- Claim C4 (amended): the completion strategy takes every generation
parameter (engine/model, temperature, max tokens, top-p, frequency and
presence penalty) from the process-wide configuration; the chat strategy
takes only the model name from it and hardcodes temperature 0.7,
max tokens 800 and top-p 0.95 (and passes no penalty parameters at all);
in both strategies only the prompt varies per call. -/
theorem generation_params_sources (cfg : Config) (text prompt : String) :
    (completionRequest cfg text prompt).engine = cfg.model
    ∧ (completionRequest cfg text prompt).temperature = cfg.temperature
    ∧ (completionRequest cfg text prompt).maxTokens = cfg.maxTokens
    ∧ (completionRequest cfg text prompt).topP = cfg.topP
    ∧ (completionRequest cfg text prompt).frequencyPenalty = cfg.frequencyPenalty
    ∧ (completionRequest cfg text prompt).presencePenalty = cfg.presencePenalty
    ∧ (chatRequest cfg text prompt).model = cfg.model
    ∧ (chatRequest cfg text prompt).temperature = 7/10
    ∧ (chatRequest cfg text prompt).maxTokens = 800
    ∧ (chatRequest cfg text prompt).topP = 19/20 :=
  ⟨rfl, rfl, rfl, rfl, rfl, rfl, rfl, rfl, rfl, rfl⟩

/-- A configuration whose generation parameters differ from the chat-mode
literals (corresponding to, e.g., `OPENAI_TEMPERATURE=0.2`). -/
def lowTempConfig : Config :=
  { model := "gpt-4o", temperature := 1/5, maxTokens := 100, topP := 1/2,
    frequencyPenalty := 0, presencePenalty := 0, promptDefault := "P" }

/-- Counterexample for C4 as stated: in chat mode the request temperature,
max tokens and top-p are not the configured process-wide defaults. -/
theorem chat_params_counterexample :
    (chatRequest lowTempConfig "hello" "").temperature ≠ lowTempConfig.temperature
    ∧ (chatRequest lowTempConfig "hello" "").maxTokens ≠ lowTempConfig.maxTokens
    ∧ (chatRequest lowTempConfig "hello" "").topP ≠ lowTempConfig.topP := by
  refine ⟨?_, ?_, ?_⟩ <;> norm_num [chatRequest, lowTempConfig]

/-- Claim C10: in either strategy, a call whose prompt override is the
empty string uses the configured default prompt instead (for the chat
strategy as the system message, for the completion strategy appended after
the input text); consequently, whenever the configured default prompt is
itself nonempty, the effective prompt sent to the backend is never the
empty string. -/
theorem empty_prompt_uses_default (cfg : Config) (text q : String) :
    (chatRequest cfg text "").messages = [("system", cfg.promptDefault), ("user", text)]
    ∧ (completionRequest cfg text "").prompt = text ++ ":\n\n" ++ cfg.promptDefault
    ∧ (cfg.promptDefault ≠ "" → effPrompt cfg q ≠ "") := by
  refine ⟨by simp [chatRequest, effPrompt], by simp [completionRequest, effPrompt], ?_⟩
  intro hne
  by_cases hq : q = ""
  · simpa [effPrompt, hq] using hne
  · simp [effPrompt, hq]

/-- A configuration with a nonempty default prompt. -/
def defaultPromptConfig : Config :=
  { model := "m", temperature := 7/10, maxTokens := 800, topP := 19/20,
    frequencyPenalty := 0, presencePenalty := 0,
    promptDefault := "Summarize the conversation." }

/-- Witness for C10 at a concrete configuration and an explicitly passed
empty prompt. -/
theorem empty_prompt_uses_default_witness :
    ("Summarize the conversation." : String) ≠ ""
    ∧ effPrompt defaultPromptConfig "" ≠ ""
    ∧ (chatRequest defaultPromptConfig "conv" "").messages
        = [("system", "Summarize the conversation."), ("user", "conv")] :=
  ⟨by decide,
   (empty_prompt_uses_default defaultPromptConfig "conv" "").2.2 (by decide),
   (empty_prompt_uses_default defaultPromptConfig "conv" "").1⟩
